import Mathlib

/-!
Verification of the token-keeper of `bettybot-crm-sync` against its design
specification.  The embedding models `ZohoTokenKeeper` from `src/app.py`
(the eager-refresh constructor, the background refresh loop `_loop`, the
refresh exchange `_refresh` and the public `get`) and the standalone
refresh script `src/refresh_token.py`.

Timestamps (Python `time.time()` floats) are modelled as integer seconds;
`expires_in` (run through Python `int(...)`) as an integer.  The class
attribute `_lock` is a non-reentrant `threading.Lock`: `get` holds it while
calling `_refresh`, whose state swap re-acquires the same lock, so the
success path of a foreground refresh blocks forever.  That blocking is
modelled explicitly as a `deadlock` outcome.
-/

namespace BettyBot

/-- A JSON `expires_in` field as seen by `int(data.get("expires_in", 3600))`:
either a numeric value or something `int()` rejects with `ValueError`. -/
inductive ExpiresVal where
  | num (n : Int)
  | malformed
deriving DecidableEq, Repr

/-- The body of the authorization server's HTTP response: either text that
`resp.json()` fails to decode, or a JSON object, of which `_refresh` reads
the `access_token` and `expires_in` fields. -/
inductive Body where
  | notJson
  | json (accessToken : Option String) (expiresIn : Option ExpiresVal)
deriving DecidableEq, Repr

/-- An HTTP response from the authorization server. -/
structure Response where
  status : Nat
  body : Body
deriving DecidableEq, Repr

/-- The refresh credentials fixed at process start:
`ZOHO_CLIENT_ID`, `ZOHO_CLIENT_SECRET`, `ZOHO_REFRESH_TOKEN`
(`os.getenv` with default `""`, so an absent variable is the empty string). -/
structure Config where
  clientId : String
  clientSecret : String
  refreshToken : String
deriving DecidableEq, Repr

/-- The keeper's mutable state: `self._access_token` (initially `None`) and
`self._expires_at` (initially `0.0`). -/
structure KeeperSt where
  accessToken : Option String
  expiresAt : ℤ
deriving DecidableEq, Repr

/-- The state installed by `ZohoTokenKeeper.__init__` before its eager
refresh: no token, expiry 0.0. -/
def initSt : KeeperSt := ⟨none, 0⟩

/-- The exceptions `_refresh` can raise, with the diagnostics each carries:
`RuntimeError` for missing credentials, `requests.HTTPError` from
`raise_for_status()` carrying the status, `JSONDecodeError` from
`resp.json()`, `RuntimeError` carrying the JSON data when `access_token`
is absent or falsy, and `ValueError` from `int(...)` on a bad
`expires_in`. -/
inductive RefreshErr where
  | configMissing
  | httpError (status : Nat)
  | bodyNotJson
  | missingAccessToken (data : Body)
  | badExpiresIn
deriving DecidableEq, Repr

/-- Embedding of `ZohoTokenKeeper._refresh` (src/app.py lines 74-96) run with
the lock available, as the constructor and the background loop run it.
Returns the exception raised (if any) together with the keeper state after
the call.  Every `raise` happens before the locked state swap at lines
93-95, so each error branch returns the state unchanged; the success
branch installs the token and `time.time() + expires_in` together. -/
def refreshMut (cfg : Config) (resp : Response) (now : ℤ) (s : KeeperSt) :
    Option RefreshErr × KeeperSt :=
  if cfg.clientId = "" ∨ cfg.clientSecret = "" ∨ cfg.refreshToken = "" then
    (some .configMissing, s)
  else if resp.status ≠ 200 ∧ 400 ≤ resp.status ∧ resp.status < 600 then
    (some (.httpError resp.status), s)
  else
    match resp.body with
    | .notJson => (some .bodyNotJson, s)
    | .json accessToken expiresIn =>
      if accessToken = none ∨ accessToken = some "" then
        (some (.missingAccessToken resp.body), s)
      else
        match expiresIn with
        | some .malformed => (some .badExpiresIn, s)
        | some (.num n) => (none, ⟨accessToken, now + n⟩)
        | none => (none, ⟨accessToken, now + 3600⟩)

/-- Outcome of a `get()` call: a returned value of `self._access_token`
(Python may return `None`), a propagated exception, or the permanent block
of the thread on the second acquisition of the non-reentrant lock. -/
inductive GetOut where
  | tok (t : Option String)
  | err (e : RefreshErr)
  | deadlock
deriving DecidableEq, Repr

/-- Embedding of `ZohoTokenKeeper.get` (src/app.py lines 98-103).  `now1` and
`now2` are the two `time.time()` reads (lines 99 and 101).  On the
double-checked path `get` holds `self._lock` and calls `_refresh`: each
failure of `_refresh` is raised before its own `with self._lock:` and
propagates, while a successful exchange reaches that second acquisition of
the same non-reentrant lock and blocks forever, before any state swap. -/
def get (cfg : Config) (s : KeeperSt) (resp : Response) (now1 now2 : ℤ) : GetOut :=
  if s.expiresAt - 60 ≤ now1 then
    if s.expiresAt - 60 ≤ now2 then
      match refreshMut cfg resp now2 s with
      | (some e, _) => .err e
      | (none, _) => .deadlock
    else .tok s.accessToken
  else .tok s.accessToken

/-- Embedding of one iteration of `ZohoTokenKeeper._loop` (src/app.py lines
66-72): check the margin, refresh if due, and swallow any exception
(`except Exception: logger.error(...)`), leaving the state as the failed
refresh left it. -/
def loopTick (cfg : Config) (resp : Response) (now : ℤ) (s : KeeperSt) : KeeperSt :=
  if s.expiresAt - 60 ≤ now then
    match refreshMut cfg resp now s with
    | (some _, s') => s'
    | (none, s') => s'
  else s

/-- The background loop run over a finite prefix of its ticks, each tick
supplied with the provider response and the `time.time()` it would observe.
Returns the final state and the number of ticks fully processed (the
`time.sleep(30)` at the bottom of the loop body is reached once per
iteration). -/
def loopRun (cfg : Config) (s : KeeperSt) (ticks : List (Response × ℤ)) :
    KeeperSt × Nat :=
  ticks.foldl (fun acc t => (loopTick cfg t.1 t.2 acc.1, acc.2 + 1)) (s, 0)

/-- Outcome of `ZohoTokenKeeper.__init__` (src/app.py lines 59-63): the
exception propagated out of the eager `self._refresh()` (if any), the
constructed state, and whether `threading.Thread(target=self._loop).start()`
on the following line was reached. -/
structure InitOut where
  raised : Option RefreshErr
  keeper : Option KeeperSt
  loopStarted : Bool
deriving DecidableEq, Repr

/-- Embedding of `ZohoTokenKeeper.__init__`: initialize the fields, run the
eager refresh (lock available), and only on its success start the
background loop thread. -/
def initKeeper (cfg : Config) (resp : Response) (now : ℤ) : InitOut :=
  match refreshMut cfg resp now initSt with
  | (some e, _) => ⟨some e, none, false⟩
  | (none, s') => ⟨none, some s', true⟩

/-- The authorization endpoint (src/app.py line 44 and
src/refresh_token.py line 11). -/
def tokenEndpoint : String := "https://accounts.zoho.eu/oauth/v2/token"

/-- Shape of an outbound HTTP request: `formData` models the
`requests.post(..., data=...)` form body, `queryParams` models
`requests.post(..., params=...)` URL query parameters (whose values may be
Python `None`), `timeoutSec` the `timeout=` argument. -/
structure HttpRequest where
  method : String
  url : String
  formData : List (String × String)
  queryParams : List (String × Option String)
  timeoutSec : Option ℤ
deriving DecidableEq, Repr

/-- The request issued by `ZohoTokenKeeper._refresh` (src/app.py lines
77-84): a form-encoded POST of the payload dict with `timeout=15`. -/
def keeperRefreshRequest (cfg : Config) : HttpRequest :=
  { method := "POST"
    url := tokenEndpoint
    formData := [("refresh_token", cfg.refreshToken), ("client_id", cfg.clientId),
                 ("client_secret", cfg.clientSecret), ("grant_type", "refresh_token")]
    queryParams := []
    timeoutSec := some 15 }

/-- The string `src/refresh_token.py` line 4 passes to `os.getenv` as the
variable name for `CLIENT_ID`: the client id value itself. -/
def clientIdEnvName : String := "1000.SL6WYQ25ZIQ3HTIDT5SUNZEM8FFB7B"

/-- The string lines 5-6 of `src/refresh_token.py` pass to `os.getenv` as
the variable name for `CLIENT_SECRET`: the client secret value with a
trailing newline (the literal spans two lines in the file). -/
def clientSecretEnvName : String := "eab21f3a131962167ce447fdfaf4c0dbb9ddbb4d40\n"

/-- The string `src/refresh_token.py` line 7 passes to `os.getenv` as the
variable name for `REFRESH_TOKEN`: the refresh token value itself. -/
def refreshTokenEnvName : String := "1000.fb3042c40d053a92a5111ecb47c15a3c.1dbbcdd52c6127d21a8076240ca61fd9"

/-- `REDIRECT_URI` (src/refresh_token.py line 8): `ZOHO_REDIRECT_URI` with
default `"https://www.google.com"`. -/
def scriptRedirectUri (env : String → Option String) : String :=
  (env "ZOHO_REDIRECT_URI").getD "https://www.google.com"

/-- The request issued by `refresh_access_token` (src/refresh_token.py
lines 10-20): `requests.post(url, params=params)` — the five params as URL
query parameters, an empty form body, and no `timeout=` argument. -/
def scriptRequest (env : String → Option String) : HttpRequest :=
  { method := "POST"
    url := tokenEndpoint
    formData := []
    queryParams := [("refresh_token", env refreshTokenEnvName),
                    ("client_id", env clientIdEnvName),
                    ("client_secret", env clientSecretEnvName),
                    ("grant_type", some "refresh_token"),
                    ("redirect_uri", some (scriptRedirectUri env))]
    timeoutSec := none }

/-- Outcome of `refresh_access_token` after the POST: `response.json()` is
printed and the function falls off the end returning Python `None`, unless
the body fails to decode, in which case `json()` raises. -/
inductive ScriptOut where
  | returned (value : Option String)
  | jsonDecodeError
deriving DecidableEq, Repr

/-- Embedding of `refresh_access_token` (src/refresh_token.py lines 10-21):
the request it sends and what it does with the response.  No
`raise_for_status` is called, so the status code is never consulted. -/
def refreshAccessToken (env : String → Option String) (resp : Response) :
    HttpRequest × ScriptOut :=
  (scriptRequest env,
    match resp.body with
    | .notJson => .jsonDecodeError
    | .json _ _ => .returned none)

/-- A sample valid credential set for concrete evaluations. -/
def cfgDemo : Config := ⟨"cid", "csecret", "rtok"⟩

/-- All three refresh credentials are non-empty (the check at src/app.py
line 75 passes). -/
def credsOk (cfg : Config) : Prop :=
  cfg.clientId ≠ "" ∧ cfg.clientSecret ≠ "" ∧ cfg.refreshToken ≠ ""

/-- The exact condition under which `_refresh` returns without raising:
no 4xx/5xx status (the only statuses `raise_for_status` rejects), a JSON
body, a present and non-empty `access_token`, and an `expires_in` that is
absent or numeric. -/
def refreshSuccessCond (resp : Response) : Prop :=
  ¬ (400 ≤ resp.status ∧ resp.status < 600) ∧
  ∃ t ei, resp.body = .json (some t) ei ∧ t ≠ "" ∧ ei ≠ some .malformed

lemma credsOk_neg (cfg : Config) (hc : credsOk cfg) :
    ¬ (cfg.clientId = "" ∨ cfg.clientSecret = "" ∨ cfg.refreshToken = "") := by
  rcases hc with ⟨a, b, c⟩
  rintro (h | h | h) <;> contradiction

lemma refreshMut_config (cfg : Config) (resp : Response) (now : ℤ) (s : KeeperSt)
    (h : cfg.clientId = "" ∨ cfg.clientSecret = "" ∨ cfg.refreshToken = "") :
    refreshMut cfg resp now s = (some .configMissing, s) := by
  unfold refreshMut
  rw [if_pos h]

lemma refreshMut_http (cfg : Config) (st : Nat) (body : Body) (now : ℤ) (s : KeeperSt)
    (hc : credsOk cfg) (h4 : 400 ≤ st) (h6 : st < 600) :
    refreshMut cfg ⟨st, body⟩ now s = (some (.httpError st), s) := by
  unfold refreshMut
  rw [if_neg (credsOk_neg cfg hc)]
  rw [if_pos (show (⟨st, body⟩ : Response).status ≠ 200 ∧
      400 ≤ (⟨st, body⟩ : Response).status ∧ (⟨st, body⟩ : Response).status < 600 from
    ⟨by dsimp; omega, h4, h6⟩)]

lemma statusPass (st : Nat) (body : Body) (hst : ¬ (400 ≤ st ∧ st < 600)) :
    ¬ ((⟨st, body⟩ : Response).status ≠ 200 ∧
        400 ≤ (⟨st, body⟩ : Response).status ∧ (⟨st, body⟩ : Response).status < 600) :=
  fun h => hst h.2

lemma refreshMut_notJson (cfg : Config) (st : Nat) (now : ℤ) (s : KeeperSt)
    (hc : credsOk cfg) (hst : ¬ (400 ≤ st ∧ st < 600)) :
    refreshMut cfg ⟨st, .notJson⟩ now s = (some .bodyNotJson, s) := by
  unfold refreshMut
  rw [if_neg (credsOk_neg cfg hc), if_neg (statusPass st .notJson hst)]

lemma refreshMut_noToken (cfg : Config) (st : Nat) (tok : Option String)
    (ei : Option ExpiresVal) (now : ℤ) (s : KeeperSt)
    (hc : credsOk cfg) (hst : ¬ (400 ≤ st ∧ st < 600))
    (htok : tok = none ∨ tok = some "") :
    refreshMut cfg ⟨st, .json tok ei⟩ now s =
      (some (.missingAccessToken (.json tok ei)), s) := by
  unfold refreshMut
  rw [if_neg (credsOk_neg cfg hc), if_neg (statusPass st (.json tok ei) hst)]
  dsimp only
  rw [if_pos htok]

lemma someTokOk (t : String) (ht : t ≠ "") :
    ¬ ((some t : Option String) = none ∨ (some t : Option String) = some "") := by
  rintro (h | h)
  · exact Option.noConfusion h
  · exact ht (Option.some.inj h)

lemma refreshMut_badExpires (cfg : Config) (st : Nat) (t : String) (now : ℤ)
    (s : KeeperSt) (hc : credsOk cfg) (hst : ¬ (400 ≤ st ∧ st < 600)) (ht : t ≠ "") :
    refreshMut cfg ⟨st, .json (some t) (some .malformed)⟩ now s =
      (some .badExpiresIn, s) := by
  unfold refreshMut
  rw [if_neg (credsOk_neg cfg hc),
    if_neg (statusPass st (.json (some t) (some .malformed)) hst)]
  dsimp only
  rw [if_neg (someTokOk t ht)]

lemma refreshMut_num (cfg : Config) (st : Nat) (t : String) (n : Int) (now : ℤ)
    (s : KeeperSt) (hc : credsOk cfg) (hst : ¬ (400 ≤ st ∧ st < 600)) (ht : t ≠ "") :
    refreshMut cfg ⟨st, .json (some t) (some (.num n))⟩ now s =
      (none, ⟨some t, now + n⟩) := by
  unfold refreshMut
  rw [if_neg (credsOk_neg cfg hc),
    if_neg (statusPass st (.json (some t) (some (.num n))) hst)]
  dsimp only
  rw [if_neg (someTokOk t ht)]

lemma refreshMut_noExpires (cfg : Config) (st : Nat) (t : String) (now : ℤ)
    (s : KeeperSt) (hc : credsOk cfg) (hst : ¬ (400 ≤ st ∧ st < 600)) (ht : t ≠ "") :
    refreshMut cfg ⟨st, .json (some t) none⟩ now s =
      (none, ⟨some t, now + 3600⟩) := by
  unfold refreshMut
  rw [if_neg (credsOk_neg cfg hc),
    if_neg (statusPass st (.json (some t) none) hst)]
  dsimp only
  rw [if_neg (someTokOk t ht)]

/-- Every run of `_refresh` either raises (leaving the state exactly as it
was) or installs a complete new pair `(some t, now + n)` drawn from the
response body. -/
lemma refreshMut_dichotomy (cfg : Config) (resp : Response) (now : ℤ) (s : KeeperSt) :
    (∃ e, refreshMut cfg resp now s = (some e, s)) ∨
    (credsOk cfg ∧ ¬ (400 ≤ resp.status ∧ resp.status < 600) ∧ ∃ (t : String) (n : Int),
      refreshMut cfg resp now s = (none, ⟨some t, now + n⟩) ∧ t ≠ "" ∧
      (resp.body = .json (some t) (some (.num n)) ∨
        (n = 3600 ∧ resp.body = .json (some t) none))) := by
  rcases resp with ⟨st, body⟩
  by_cases h1 : cfg.clientId = "" ∨ cfg.clientSecret = "" ∨ cfg.refreshToken = ""
  · exact Or.inl ⟨_, refreshMut_config cfg ⟨st, body⟩ now s h1⟩
  · have hc : credsOk cfg :=
      ⟨fun h => h1 (Or.inl h), fun h => h1 (Or.inr (Or.inl h)),
        fun h => h1 (Or.inr (Or.inr h))⟩
    by_cases hst : 400 ≤ st ∧ st < 600
    · exact Or.inl ⟨_, refreshMut_http cfg st body now s hc hst.1 hst.2⟩
    · cases body with
      | notJson => exact Or.inl ⟨_, refreshMut_notJson cfg st now s hc hst⟩
      | json tok ei =>
        by_cases htok : tok = none ∨ tok = some ""
        · exact Or.inl ⟨_, refreshMut_noToken cfg st tok ei now s hc hst htok⟩
        · rcases tok with _ | t
          · exact absurd (Or.inl rfl) htok
          · have ht : t ≠ "" := fun h => htok (Or.inr (by rw [h]))
            cases ei with
            | none =>
                refine Or.inr ⟨hc, hst, t, 3600, ?_, ht, Or.inr ⟨rfl, rfl⟩⟩
                rw [refreshMut_noExpires cfg st t now s hc hst ht]
            | some ev =>
                cases ev with
                | malformed =>
                    exact Or.inl ⟨_, refreshMut_badExpires cfg st t now s hc hst ht⟩
                | num n =>
                    exact Or.inr ⟨hc, hst, t, n,
                      refreshMut_num cfg st t n now s hc hst ht, ht, Or.inl rfl⟩

/-- A refresh that raises leaves the keeper state untouched. -/
lemma refreshMut_isSome_state (cfg : Config) (resp : Response) (now : ℤ) (s : KeeperSt)
    (h : (refreshMut cfg resp now s).1.isSome) : (refreshMut cfg resp now s).2 = s := by
  rcases refreshMut_dichotomy cfg resp now s with ⟨e, he⟩ | ⟨_, _, t, n, he, _⟩
  · rw [he]
  · rw [he] at h
    simp at h

lemma cfgDemo_ok : credsOk cfgDemo := by
  unfold credsOk cfgDemo
  refine ⟨?_, ?_, ?_⟩ <;> decide

lemma loopRun_go (cfg : Config) (ticks : List (Response × ℤ)) :
    ∀ (s : KeeperSt) (n : Nat),
      (ticks.foldl (fun acc t => (loopTick cfg t.1 t.2 acc.1, acc.2 + 1)) (s, n)).2 =
        n + ticks.length := by
  induction ticks with
  | nil => intro s n; simp
  | cons t ts ih =>
      intro s n
      simp only [List.foldl_cons, List.length_cons]
      rw [ih]
      omega

/-- C1: the single-flight property fails on the code.  At the failing input —
the cached token absent/expired (the initial state) and the provider
answering `200` with a fresh token — a foreground `get()` enters the
double-checked section holding the non-reentrant class lock and the
successful `_refresh` blocks forever re-acquiring that same lock for its
state swap, so no caller ever receives the token of the (single) exchange;
moreover `_loop` invokes `_refresh` without holding the lock at all, so a
loop refresh is not serialized against foreground refreshes. -/
theorem c1_get_success_deadlocks :
    get cfgDemo initSt ⟨200, .json (some "tok1") (some (.num 3600))⟩ 10 10 =
      .deadlock := by
  decide

/-- C2: no stale serving.  If at entry the effective expiry
(`expiresAt - 60`) has been reached and the refresh attempt raises, `get`
propagates the error; and `get` returns a token value only when the first
`time.time()` read is still strictly inside the effective expiry, the value
being the cached one. -/
theorem c2_no_stale_serving (cfg : Config) (s : KeeperSt) (resp : Response)
    (now1 now2 : ℤ) (hmono : now1 ≤ now2) :
    (s.expiresAt - 60 ≤ now1 → (refreshMut cfg resp now2 s).1.isSome →
      ∃ e, get cfg s resp now1 now2 = .err e) ∧
    (∀ t, get cfg s resp now1 now2 = .tok t →
      now1 < s.expiresAt - 60 ∧ t = s.accessToken) := by
  constructor
  · intro h1 hsome
    have h2 : s.expiresAt - 60 ≤ now2 := le_trans h1 hmono
    rcases hr : refreshMut cfg resp now2 s with ⟨oe, s'⟩
    rcases oe with _ | e
    · rw [hr] at hsome
      simp at hsome
    · refine ⟨e, ?_⟩
      unfold get
      rw [if_pos h1, if_pos h2, hr]
  · intro t ht
    unfold get at ht
    by_cases h1 : s.expiresAt - 60 ≤ now1
    · have h2 : s.expiresAt - 60 ≤ now2 := le_trans h1 hmono
      rw [if_pos h1, if_pos h2] at ht
      rcases hr : refreshMut cfg resp now2 s with ⟨oe, s'⟩
      rw [hr] at ht
      rcases oe with _ | e <;> simp at ht
    · rw [if_neg h1] at ht
      exact ⟨lt_of_not_le h1, (GetOut.tok.inj ht).symm⟩

theorem c2_no_stale_serving_witness :
    (950 : ℤ) ≤ 950 ∧
    (((⟨some "a", 1000⟩ : KeeperSt).expiresAt - 60 ≤ 950 →
        (refreshMut cfgDemo ⟨404, .notJson⟩ 950 ⟨some "a", 1000⟩).1.isSome →
        ∃ e, get cfgDemo ⟨some "a", 1000⟩ ⟨404, .notJson⟩ 950 950 = .err e) ∧
      (∀ t, get cfgDemo ⟨some "a", 1000⟩ ⟨404, .notJson⟩ 950 950 = .tok t →
        (950 : ℤ) < (⟨some "a", 1000⟩ : KeeperSt).expiresAt - 60 ∧
        t = (⟨some "a", 1000⟩ : KeeperSt).accessToken)) :=
  ⟨le_refl 950,
    c2_no_stale_serving cfgDemo ⟨some "a", 1000⟩ ⟨404, .notJson⟩ 950 950 (le_refl 950)⟩

/-- C3 counterexample: at T = 0 a successful refresh with
`access_token "abc123"` and `expires_in 30` installs `("abc123", 30)` as
claimed, yet the immediate `Get()` does not return `"abc123"`: 30 seconds
is within the 60-second safety margin, so `get` re-enters the refresh path
(here the provider answers with a non-JSON body and the call raises). -/
theorem c3_counterexample :
    refreshMut cfgDemo ⟨200, .json (some "abc123") (some (.num 30))⟩ 0 initSt =
      (none, ⟨some "abc123", 30⟩) ∧
    get cfgDemo ⟨some "abc123", 30⟩ ⟨500, .notJson⟩ 0 0 ≠ .tok (some "abc123") := by
  decide

/-- C3 (amended): a successful refresh at time `now` with token `a` and
numeric `expires_in = n` installs exactly `(a, now + n)`, an immediate
`Get()` returns `a` provided `n` exceeds the 60-second safety margin, and
a response with `access_token` but no `expires_in` succeeds with the
3600-second default. -/
theorem c3_refresh_roundtrip (cfg : Config) (s : KeeperSt) (resp2 : Response)
    (a : String) (n : Int) (now : ℤ) (hc : credsOk cfg) (ha : a ≠ "") :
    refreshMut cfg ⟨200, .json (some a) (some (.num n))⟩ now s =
      (none, ⟨some a, now + n⟩) ∧
    ((60 : ℤ) < n →
      get cfg ⟨some a, now + n⟩ resp2 now now = .tok (some a)) ∧
    refreshMut cfg ⟨200, .json (some a) none⟩ now s = (none, ⟨some a, now + 3600⟩) := by
  have hst : ¬ ((400 : Nat) ≤ 200 ∧ (200 : Nat) < 600) := by omega
  refine ⟨refreshMut_num cfg 200 a n now s hc hst ha, ?_,
    refreshMut_noExpires cfg 200 a now s hc hst ha⟩
  intro hn
  unfold get
  dsimp only
  rw [if_neg (by linarith)]

theorem c3_refresh_roundtrip_witness :
    credsOk cfgDemo ∧ "abc123" ≠ "" ∧
    (refreshMut cfgDemo ⟨200, .json (some "abc123") (some (.num 3600))⟩ 0 initSt =
        (none, ⟨some "abc123", 0 + (3600 : ℤ)⟩) ∧
      ((60 : ℤ) < (3600 : ℤ) →
        get cfgDemo ⟨some "abc123", 0 + (3600 : ℤ)⟩ ⟨500, .notJson⟩ 0 0 =
          .tok (some "abc123")) ∧
      refreshMut cfgDemo ⟨200, .json (some "abc123") none⟩ 0 initSt =
        (none, ⟨some "abc123", 0 + 3600⟩)) :=
  ⟨cfgDemo_ok, by decide,
    c3_refresh_roundtrip cfgDemo initSt ⟨500, .notJson⟩ "abc123" 3600 0
      cfgDemo_ok (by decide)⟩

/-- C4: failure atomicity of `_refresh`: whenever it raises — missing
credentials, bad status, non-JSON body, missing token or malformed
`expires_in` — the keeper state after the attempt equals the state before,
and the raised error is what the caller receives. -/
theorem c4_failure_atomicity (cfg : Config) (resp : Response) (now : ℤ)
    (s : KeeperSt) (e : RefreshErr)
    (h : (refreshMut cfg resp now s).1 = some e) :
    (refreshMut cfg resp now s).2 = s :=
  refreshMut_isSome_state cfg resp now s (by rw [h]; rfl)

theorem c4_failure_atomicity_witness :
    (refreshMut ⟨"", "x", "y"⟩ ⟨200, .notJson⟩ 0 initSt).1 = some .configMissing ∧
    (refreshMut ⟨"", "x", "y"⟩ ⟨200, .notJson⟩ 0 initSt).2 = initSt :=
  ⟨by decide,
    c4_failure_atomicity ⟨"", "x", "y"⟩ ⟨200, .notJson⟩ 0 initSt .configMissing (by decide)⟩

/-- C5 counterexample: the claim says a non-2xx status fails the refresh,
but `_refresh` only raises for 4xx/5xx (`raise_for_status`): a 302
response carrying an `access_token` succeeds even though 302 is not 2xx. -/
theorem c5_counterexample :
    (refreshMut cfgDemo ⟨302, .json (some "x") none⟩ 0 initSt).1 = none ∧
    ¬ ((200 : Nat) ≤ 302 ∧ (302 : Nat) < 300) := by
  exact ⟨by decide, by omega⟩

/-- C5 (amended): with the credentials present, `_refresh` succeeds iff the
status is not 4xx/5xx and the body is JSON carrying a non-empty
`access_token` with `expires_in` absent or numeric; every 4xx/5xx status
fails with an error carrying that status code. -/
theorem c5_provider_error_conditions (cfg : Config) (resp : Response) (now : ℤ)
    (s : KeeperSt) (hc : credsOk cfg) :
    ((refreshMut cfg resp now s).1 = none ↔ refreshSuccessCond resp) ∧
    (400 ≤ resp.status → resp.status < 600 →
      (refreshMut cfg resp now s).1 = some (.httpError resp.status)) := by
  constructor
  · constructor
    · intro h
      rcases refreshMut_dichotomy cfg resp now s with ⟨e, he⟩ | ⟨_, hst, t, n, he, ht, hbody⟩
      · rw [he] at h
        simp at h
      · refine ⟨hst, t, ?_⟩
        rcases hbody with hb | ⟨_, hb⟩
        · exact ⟨some (.num n), hb, ht, by simp⟩
        · exact ⟨none, hb, ht, by simp⟩
    · rintro ⟨hst, t, ei, hb, ht, hm⟩
      rcases resp with ⟨st, body⟩
      dsimp only at hb hst
      subst hb
      cases ei with
      | none => rw [refreshMut_noExpires cfg st t now s hc hst ht]
      | some ev =>
          cases ev with
          | malformed => exact absurd rfl hm
          | num n => rw [refreshMut_num cfg st t n now s hc hst ht]
  · intro h4 h6
    rcases resp with ⟨st, body⟩
    rw [refreshMut_http cfg st body now s hc h4 h6]

theorem c5_provider_error_conditions_witness :
    credsOk cfgDemo ∧
    (((refreshMut cfgDemo ⟨503, .notJson⟩ 0 initSt).1 = none ↔
        refreshSuccessCond ⟨503, .notJson⟩) ∧
      (400 ≤ (503 : Nat) → (503 : Nat) < 600 →
        (refreshMut cfgDemo ⟨503, .notJson⟩ 0 initSt).1 = some (.httpError 503))) :=
  ⟨cfgDemo_ok, c5_provider_error_conditions cfgDemo ⟨503, .notJson⟩ 0 initSt cfgDemo_ok⟩

/-- C6: startup gating: if any of the three credentials is empty at
construction, `__init__`'s eager `_refresh` raises the configuration error,
the constructor fails, and the background loop thread is never started. -/
theorem c6_startup_gating (cfg : Config) (resp : Response) (now : ℤ)
    (h : cfg.clientId = "" ∨ cfg.clientSecret = "" ∨ cfg.refreshToken = "") :
    initKeeper cfg resp now = ⟨some .configMissing, none, false⟩ := by
  unfold initKeeper
  rw [refreshMut_config cfg resp now initSt h]

theorem c6_startup_gating_witness :
    ((⟨"", "s", "r"⟩ : Config).clientId = "" ∨ (⟨"", "s", "r"⟩ : Config).clientSecret = "" ∨
      (⟨"", "s", "r"⟩ : Config).refreshToken = "") ∧
    initKeeper ⟨"", "s", "r"⟩ ⟨200, .json (some "x") none⟩ 0 =
      ⟨some .configMissing, none, false⟩ :=
  ⟨Or.inl rfl, c6_startup_gating ⟨"", "s", "r"⟩ ⟨200, .json (some "x") none⟩ 0 (Or.inl rfl)⟩

/-- C7 counterexample: the standalone script's exchange is not of the
claimed shape: its form body is empty (the parameters travel as URL query
parameters, among them `redirect_uri`), and no timeout is set. -/
theorem c7_counterexample :
    (scriptRequest (fun _ => none)).formData = [] ∧
    (scriptRequest (fun _ => none)).timeoutSec = none ∧
    ("client_id", (none : Option String)) ∈ (scriptRequest (fun _ => none)).queryParams := by
  refine ⟨rfl, rfl, ?_⟩
  simp [scriptRequest]

/-- C7 (amended): the keeper's refresh is a form-encoded POST to the
authorization endpoint whose body has exactly the fields `refresh_token`,
`client_id`, `client_secret`, `grant_type="refresh_token"` with a
15-second (within 15-20s) timeout; the standalone script instead sends an
empty form body, five URL query parameters (the four fields plus
`redirect_uri`), and no timeout. -/
theorem c7_request_shape (cfg : Config) (env : String → Option String) :
    (keeperRefreshRequest cfg).method = "POST" ∧
    (keeperRefreshRequest cfg).url = tokenEndpoint ∧
    (keeperRefreshRequest cfg).formData.map Prod.fst =
      ["refresh_token", "client_id", "client_secret", "grant_type"] ∧
    (keeperRefreshRequest cfg).formData.map Prod.snd =
      [cfg.refreshToken, cfg.clientId, cfg.clientSecret, "refresh_token"] ∧
    (keeperRefreshRequest cfg).queryParams = [] ∧
    (∃ t, (keeperRefreshRequest cfg).timeoutSec = some t ∧ 15 ≤ t ∧ t ≤ 20) ∧
    (scriptRequest env).formData = [] ∧
    (scriptRequest env).timeoutSec = none ∧
    (scriptRequest env).queryParams.map Prod.fst =
      ["refresh_token", "client_id", "client_secret", "grant_type", "redirect_uri"] := by
  refine ⟨rfl, rfl, rfl, rfl, rfl, ⟨15, rfl, by norm_num, by norm_num⟩, rfl, rfl, rfl⟩

/-- C8: loop self-healing: the loop completes every tick — over any finite
list of ticks the number of iterations fully processed equals the number of
ticks supplied, whatever the provider answered — and a tick whose refresh
raises leaves the keeper state unchanged (the exception is swallowed). -/
theorem c8_loop_self_healing (cfg : Config) (s : KeeperSt)
    (ticks : List (Response × ℤ)) :
    (loopRun cfg s ticks).2 = ticks.length ∧
    (∀ resp now, (refreshMut cfg resp now s).1.isSome →
      loopTick cfg resp now s = s) := by
  constructor
  · unfold loopRun
    rw [loopRun_go]
    omega
  · intro resp now hsome
    unfold loopTick
    by_cases hdue : s.expiresAt - 60 ≤ now
    · rw [if_pos hdue]
      rcases hr : refreshMut cfg resp now s with ⟨oe, s'⟩
      have h2 : s' = s := by
        have h3 := refreshMut_isSome_state cfg resp now s hsome
        rw [hr] at h3
        exact h3
      rcases oe with _ | e
      · rw [hr] at hsome
        simp at hsome
      · exact h2
    · rw [if_neg hdue]

theorem c8_loop_self_healing_witness :
    (loopRun cfgDemo ⟨some "a", 100⟩ [(⟨500, .notJson⟩, 90)]).2 =
      [((⟨500, .notJson⟩ : Response), (90 : ℤ))].length ∧
    (refreshMut cfgDemo ⟨500, .notJson⟩ 90 ⟨some "a", 100⟩).1.isSome ∧
    loopTick cfgDemo ⟨500, .notJson⟩ 90 ⟨some "a", 100⟩ = ⟨some "a", 100⟩ :=
  ⟨(c8_loop_self_healing cfgDemo ⟨some "a", 100⟩ [(⟨500, .notJson⟩, 90)]).1,
    by decide,
    (c8_loop_self_healing cfgDemo ⟨some "a", 100⟩ [(⟨500, .notJson⟩, 90)]).2
      ⟨500, .notJson⟩ 90 (by decide)⟩

/-- C9 counterexample: the code installs `expiresAt = now + expires_in`
without validating `expires_in`, so a response with `expires_in = 0`
produces a cached token whose expiry equals its issue time, violating
`expiresAt > issuedAt`. -/
theorem c9_counterexample :
    refreshMut cfgDemo ⟨200, .json (some "x") (some (.num 0))⟩ 5 initSt =
      (none, ⟨some "x", 5⟩) ∧
    ¬ ((5 : ℤ) > 5) := by
  exact ⟨by decide, by norm_num⟩

/-- C9 (amended): the cached pair is only ever replaced as a whole — after
any refresh the state is either exactly the old one or exactly
`(some t, now + n)` for the response's token and expiry — and the invariant
`expiresAt > issuedAt` holds whenever the provider's `expires_in` is
positive (the code does not validate it). -/
theorem c9_token_whole_swap (cfg : Config) (resp : Response) (now : ℤ) (s : KeeperSt) :
    (refreshMut cfg resp now s).2 = s ∨
    (∃ (t : String) (n : Int),
      (refreshMut cfg resp now s).2 = ⟨some t, now + n⟩ ∧
      (0 < n → now < (refreshMut cfg resp now s).2.expiresAt)) := by
  rcases refreshMut_dichotomy cfg resp now s with ⟨e, he⟩ | ⟨_, _, t, n, he, _, _⟩
  · exact Or.inl (by rw [he])
  · refine Or.inr ⟨t, n, by rw [he], ?_⟩
    intro hn
    rw [he]
    dsimp only
    linarith

theorem c9_token_whole_swap_witness :
    (refreshMut cfgDemo ⟨200, .json (some "x") (some (.num 100))⟩ 0 initSt).2 = initSt ∨
    (∃ (t : String) (n : Int),
      (refreshMut cfgDemo ⟨200, .json (some "x") (some (.num 100))⟩ 0 initSt).2 =
        ⟨some t, 0 + n⟩ ∧
      (0 < n → (0 : ℤ) <
        (refreshMut cfgDemo ⟨200, .json (some "x") (some (.num 100))⟩ 0 initSt).2.expiresAt)) :=
  c9_token_whole_swap cfgDemo ⟨200, .json (some "x") (some (.num 100))⟩ 0 initSt

/-- C10: `refresh_access_token` looks the credentials up with the literal
secret strings as environment-variable names; in an environment where no
variable with those exact names exists, the POST carries
`refresh_token`, `client_id` and `client_secret` all equal to `None` as URL
query parameters, the form body is empty, and for a JSON-bodied response of
any status the function returns `None` without signalling failure. -/
theorem c10_script_env_misuse (env : String → Option String) (resp : Response)
    (h1 : env clientIdEnvName = none) (h2 : env clientSecretEnvName = none)
    (h3 : env refreshTokenEnvName = none) (hjson : resp.body ≠ .notJson) :
    (refreshAccessToken env resp).1.queryParams =
      [("refresh_token", none), ("client_id", none), ("client_secret", none),
       ("grant_type", some "refresh_token"),
       ("redirect_uri", some (scriptRedirectUri env))] ∧
    (refreshAccessToken env resp).1.formData = [] ∧
    (refreshAccessToken env resp).2 = .returned none := by
  refine ⟨?_, rfl, ?_⟩
  · show (scriptRequest env).queryParams = _
    simp only [scriptRequest, h1, h2, h3]
  · rcases resp with ⟨st, body⟩
    cases body with
    | notJson => exact absurd rfl hjson
    | json tok ei => rfl

theorem c10_script_env_misuse_witness :
    (refreshAccessToken (fun _ => none) ⟨401, .json none none⟩).1.queryParams =
      [("refresh_token", none), ("client_id", none), ("client_secret", none),
       ("grant_type", some "refresh_token"),
       ("redirect_uri", some (scriptRedirectUri (fun _ => none)))] ∧
    (refreshAccessToken (fun _ => none) ⟨401, .json none none⟩).1.formData = [] ∧
    (refreshAccessToken (fun _ => none) ⟨401, .json none none⟩).2 = .returned none :=
  c10_script_env_misuse (fun _ => none) ⟨401, .json none none⟩ rfl rfl rfl (by decide)

end BettyBot
